import Mathlib

/-!
Verification development for the azureml-examples notebooks:
  - logging_model_with_mlflow.ipynb (model-packaging workflow),
  - using_mlflow_rest_api.ipynb (tracking REST client workflow),
  - the Synapse Spark pool attach/detach notebook (compute workflow).

The Python cells are shallowly embedded: straight-line cells become pure
functions, fallible Python operations (name lookup, dict indexing, file
reads) return Except values, and external-library state (a trained XGBoost
classifier, saved model files, HTTP responses) is modelled abstractly but
explicitly.  Python name resolution is made explicit where the notebooks
depend on it: a free variable of a function body resolves against the
namespace the surrounding file actually creates, and an unbound name is a
NameError, exactly as in CPython.
-/

/-- Errors a Python expression in the embedded cells can raise. -/
inductive PyError where
  | nameError (name : String)
  | keyError (key : String)
  | attributeError (name : String)
  | fileNotFoundError (path : String)
  | importError (moduleName : String)
  deriving DecidableEq, Repr

/-! ## The XGBoost classifier, modelled abstractly

The classifier itself is external-library code (xgboost).  The notebooks
treat it as a black box with four operations: the constructor
XGBClassifier(use_label_encoder=False, eval_metric="logloss"), fit,
save_model / load_model, and predict_proba.  We model its state as the
abstract trained parameters it carries; a freshly constructed classifier is
unfitted (state 0), save_model writes the state to a file, load_model
replaces the state with a file's contents, and predict_proba is an
injective function of the trained state and the input, so two classifiers
with different trained state are observationally distinct. -/

structure XGBClassifier where
  /-- Abstract trained parameters; 0 is the unfitted state of a freshly
  constructed classifier. -/
  weights : Nat
  deriving DecidableEq, Repr

/-- XGBClassifier(use_label_encoder=False, eval_metric="logloss"): a fresh,
unfitted classifier. -/
def XGBClassifier.new : XGBClassifier := { weights := 0 }

/-- model.save_model(path) writes the trained state; the written file is
its contents. -/
def XGBClassifier.save_model (m : XGBClassifier) : Nat := m.weights

/-- model.load_model(file) replaces the classifier's trained state with the
file's contents. -/
def XGBClassifier.load_model (_m : XGBClassifier) (file : Nat) : XGBClassifier :=
  { weights := file }

/-- model.predict_proba(data): external xgboost inference, modelled as an
injective function of the classifier's trained state and the input. -/
def XGBClassifier.predict_proba (m : XGBClassifier) (data : Nat) : Nat × Nat :=
  (m.weights, data)

/-- A file system: paths mapped to saved model files. -/
abbrev Disk : Type := List (String × Nat)

/-- Reading a file; a missing path is a FileNotFoundError. -/
def readFile (disk : Disk) (path : String) : Except PyError Nat :=
  match List.lookup path disk with
  | some file => Except.ok file
  | none => Except.error (PyError.fileNotFoundError path)

/-! ## The pyfunc model context

mlflow.pyfunc.PythonModelContext: at load time, context.artifacts maps each
logical artifact name to the local path of the copy stored in the bundle. -/

structure PythonModelContext where
  artifacts : List (String × String)
  deriving DecidableEq, Repr

/-- Python dict indexing d[k]: a KeyError when the key is absent. -/
def dictGet (d : List (String × String)) (k : String) : Except PyError String :=
  match List.lookup k d with
  | some v => Except.ok v
  | none => Except.error (PyError.keyError k)

/-! ## Custom wrapper 1: the serializable ModelWrapper

First ModelWrapper class of the notebook (cell 70d372e9): it is constructed
with the trained model and holds a direct in-memory reference to it. -/

structure ModelWrapper where
  _model : XGBClassifier
  deriving DecidableEq, Repr

/-- ModelWrapper.predict(self, context, data): returns
self._model.predict_proba(data). -/
def ModelWrapper.predict (self : ModelWrapper) (_context : PythonModelContext)
    (data : Nat) : Nat × Nat :=
  self._model.predict_proba data

/-- Serialization of the direct-reference wrapper into the bundle
(cloudpickle): the pickle stores the full field state of the object. -/
def ModelWrapper.pickle (self : ModelWrapper) : Nat := self._model.weights

/-- Deserialization of the pickled wrapper in the loading process: an object
with the pickled field state is reconstructed. -/
def ModelWrapper.unpickle (blob : Nat) : ModelWrapper :=
  { _model := { weights := blob } }

/-! ## Custom wrapper 2: the artifacts-based ModelWrapper

Second ModelWrapper class of the notebook (cell 285987d4).  Its
load_context reads:

    def load_context(self, context: PythonModelContext):
        from xgboost import XGBClassifier
        self._model = XGBClassifier(use_label_encoder=False, eval_metric="logloss")
        model.load_model(context.artifacts["model"])

The last line references the free name model, not self._model; that name
resolves against the surrounding notebook globals at the time load_context
runs.  The embedding therefore takes the binding of the global name model
as an explicit parameter: none means the name is unbound (a fresh process),
some g means it is bound to the classifier g (the logging process). -/

structure ModelWrapperArtifacts where
  /-- self._model; unset until load_context runs (the class has no
  constructor argument for it). -/
  _model : Option XGBClassifier
  deriving DecidableEq, Repr

/-- load_context of the artifacts-based ModelWrapper, with Python name
resolution explicit.  CPython evaluates the statement
model.load_model(context.artifacts["model"]) by first resolving the free
name model (NameError when unbound), then indexing context.artifacts
(KeyError when absent), then reading the file.  The call mutates the object
the global name model refers to, so the function returns both the updated
self and the updated global binding. -/
def ModelWrapperArtifacts.load_context (self : ModelWrapperArtifacts)
    (globalsModel : Option XGBClassifier) (context : PythonModelContext)
    (disk : Disk) :
    Except PyError (ModelWrapperArtifacts × Option XGBClassifier) :=
  let selfModel := XGBClassifier.new
  match globalsModel with
  | none => Except.error (PyError.nameError "model")
  | some g => do
      let path ← dictGet context.artifacts "model"
      let file ← readFile disk path
      Except.ok ({ self with _model := some selfModel }, some (g.load_model file))

/-- predict of the artifacts-based ModelWrapper: returns
self._model.predict_proba(data); an AttributeError when load_context never
set self._model. -/
def ModelWrapperArtifacts.predict (self : ModelWrapperArtifacts)
    (_context : PythonModelContext) (data : Nat) : Except PyError (Nat × Nat) :=
  match self._model with
  | none => Except.error (PyError.attributeError "_model")
  | some m => Except.ok (m.predict_proba data)

/-! ## The loader module (cell be6eb65c, written to loader_module.py)

The file defines class MyModel and function _load_pyfunc.  Its import list
is empty at module level (os is imported inside _load_pyfunc); in
particular it never imports XGBClassifier, so that free name of
_load_pyfunc is unbound in the namespace the file creates. -/

structure MyModel where
  _model : XGBClassifier
  deriving DecidableEq, Repr

/-- MyModel.predict(self, data): returns self._model.predict_proba(data). -/
def MyModel.predict (self : MyModel) (data : Nat) : Nat × Nat :=
  self._model.predict_proba data

/-- The global namespace a loader module creates, restricted to the one
binding _load_pyfunc depends on: whether the name XGBClassifier resolves. -/
structure LoaderModuleNamespace where
  bindsXGBClassifier : Bool
  deriving DecidableEq, Repr

/-- The namespace loader_module.py as written creates: it binds MyModel and
_load_pyfunc and imports nothing at module level, so XGBClassifier is
unbound. -/
def loaderModuleNamespace : LoaderModuleNamespace :=
  { bindsXGBClassifier := false }

/-- _load_pyfunc(data_path) from loader_module.py.  The body first
evaluates XGBClassifier(use_label_encoder=False, eval_metric="logloss"):
CPython resolves the free name XGBClassifier in the module namespace before
anything else happens, so with the namespace the file creates the call
raises NameError immediately.  Were the name bound, the function would
construct a fresh classifier, call load_model on the file at
os.path.abspath(data_path) (path-preserving in our file-system model), and
return MyModel(model). -/
def _load_pyfunc (ns : LoaderModuleNamespace) (data_path : String)
    (disk : Disk) : Except PyError MyModel :=
  if ns.bindsXGBClassifier then do
    let file ← readFile disk data_path
    Except.ok { _model := XGBClassifier.new.load_model file }
  else
    Except.error (PyError.nameError "XGBClassifier")

/-- Modelled from the spec: pyfunc loading of a bundle logged with
loader_module="loader_module" resolves the module by that name among the
bundled code files and invokes exactly the function named _load_pyfunc in
it, passing the bundle's data path (the value given as data_path at logging
time).  The loader itself is mlflow-library code, not part of this
repository; only loader_module.py is.  The one bundled module here is
loader_module. -/
def loadViaLoaderModule (moduleName : String) (data_path : String)
    (disk : Disk) : Except PyError MyModel :=
  if moduleName = "loader_module" then
    _load_pyfunc loaderModuleNamespace data_path disk
  else
    Except.error (PyError.importError moduleName)

/-! ## The Model Bundle Loader, modelled from the spec

The loader that reads a saved bundle back is mlflow-library code, not part
of this repository; the spec describes it as the Model Bundle Loader
contract.  The definitions below are therefore modelled from the spec
rather than translated from repository source. -/

/-- Modelled from the spec: the loader's error taxonomy — ManifestMissing,
UnresolvedArtifact, LoaderResolutionError, SignatureMismatch, all surfaced
directly to the caller. -/
inductive LoadError where
  | manifestMissing
  | unresolvedArtifact (name : String)
  | loaderResolutionError (entry : String)
  | signatureMismatch
  deriving DecidableEq, Repr

/-- Modelled from the spec: the entry point a manifest declares — either an
adapter object already embedded (serialized) in the bundle, or the name of
a bundled loader module. -/
inductive EntryPoint where
  | adapterObject (blob : Nat)
  | loaderModule (moduleName : String) (dataPath : String)
  deriving DecidableEq, Repr

/-- Modelled from the spec: the manifest record — flavor, entry point,
named artifact paths, optional signature. -/
structure Manifest where
  flavor : String
  entryPoint : EntryPoint
  artifacts : List (String × String)
  signature : Option Nat
  deriving DecidableEq, Repr

/-- Modelled from the spec: a Model Bundle — a directory holding an
optional manifest and the bundled files (paths mapped to contents). -/
structure Bundle where
  manifest : Option Manifest
  files : Disk
  deriving DecidableEq, Repr

/-- Modelled from the spec: the handle load returns — a reconstructed
prediction object, carrying the trained state its predictions use. -/
structure PredictorHandle where
  modelWeights : Nat
  deriving DecidableEq, Repr

/-- predict on a loaded handle: the wrapped model's inference on the
input. -/
def PredictorHandle.predict (h : PredictorHandle) (data : Nat) : Nat × Nat :=
  (XGBClassifier.mk h.modelWeights).predict_proba data

/-- Modelled from the spec: resolving the manifest's artifact dictionary
against the bundle's files; the first referenced path absent from disk is
an UnresolvedArtifact failure. -/
def resolveArtifacts (arts : List (String × String)) (files : Disk) :
    Except LoadError (List (String × Nat)) :=
  match arts with
  | [] => Except.ok []
  | (nm, path) :: rest =>
    match List.lookup path files with
    | none => Except.error (LoadError.unresolvedArtifact nm)
    | some file => do
        let r ← resolveArtifacts rest files
        Except.ok ((nm, file) :: r)

/-- Modelled from the spec: resolving the declared entry point into a
predictor, given the resolved artifacts and bundle files.  An adapter
object is deserialized from its blob; a loader-module entry point must name
a locatable module (LoaderResolutionError otherwise) whose loading function
reads the data path. -/
def resolveEntryPoint (e : EntryPoint) (files : Disk) :
    Except LoadError PredictorHandle :=
  match e with
  | EntryPoint.adapterObject blob => Except.ok { modelWeights := blob }
  | EntryPoint.loaderModule moduleName dataPath =>
    if moduleName = "loader_module" then
      match List.lookup dataPath files with
      | none => Except.error (LoadError.loaderResolutionError moduleName)
      | some file => Except.ok { modelWeights := file }
    else Except.error (LoadError.loaderResolutionError moduleName)

/-- Modelled from the spec: load(bundlePath) — reads the manifest
(ManifestMissing when the directory lacks one), resolves the declared
artifacts (UnresolvedArtifact on an absent path), then resolves the entry
point into a predictor handle.  It is a pure function invoked once per
call: its error is surfaced to the caller unchanged, with no retry. -/
def load (b : Bundle) : Except LoadError PredictorHandle :=
  match b.manifest with
  | none => Except.error LoadError.manifestMissing
  | some m => do
      let _resolved ← resolveArtifacts m.artifacts b.files
      resolveEntryPoint m.entryPoint b.files

/-- The caller-side composition: load, then predict on the handle.  A load
failure propagates unchanged; predict is never reached. -/
def loadThenPredict (b : Bundle) (data : Nat) : Except LoadError (Nat × Nat) :=
  match load b with
  | Except.error e => Except.error e
  | Except.ok h => Except.ok (h.predict data)

/-! ## The tracking REST client workflow (using_mlflow_rest_api.ipynb)

The notebook is a straight line: build the token request, POST it, read
the JSON body, build headers, GET the experiments list, read the JSON
body, tabulate the experiments field. -/

/-- JSON values, as far as the notebook inspects them. -/
inductive Json where
  | str (s : String)
  | num (n : Int)
  | arr (elems : List Json)
  | obj (fields : List (String × Json))

/-- Python dict indexing j[k] on a parsed JSON object: KeyError when the
key is absent. -/
def jsonGet (j : Json) (k : String) : Except PyError Json :=
  match j with
  | Json.obj fields =>
    match List.lookup k fields with
    | some v => Except.ok v
    | none => Except.error (PyError.keyError k)
  | _ => Except.error (PyError.keyError k)

/-- Rendering a JSON value inside a Python f-string. -/
def pyStr (j : Json) : String :=
  match j with
  | Json.str s => s
  | Json.num n => toString n
  | _ => ""

/-- An HTTP request as the notebook issues it. -/
structure HttpRequest where
  method : String
  url : String
  body : String
  deriving DecidableEq, Repr

/-- An HTTP response as the notebook receives it: a status code and a
parsed JSON body. -/
structure HttpResponse where
  statusCode : Nat
  body : Json

/-- grant_type = "client_credentials" (notebook cell 818f3671). -/
def grant_type : String := "client_credentials"

/-- resource_scope = "https://management.azure.com" (cell 818f3671). -/
def resource_scope : String := "https://management.azure.com"

/-- mso_url (cell 40e62292): the f-string with tenant_id substituted. -/
def mso_url (tenant_id : String) : String :=
  "https://login.microsoftonline.com/" ++ tenant_id ++ "/oauth2/token?"

/-- mso_body (cell 370a867d): the f-string with the credential values
substituted. -/
def mso_body (client_id client_secret : String) : String :=
  "grant_type=" ++ grant_type ++ "&client_id=" ++ client_id ++
    "&client_secret=" ++ client_secret ++ "&resource=" ++ resource_scope

/-- One form-encoded field of a request body. -/
def formField (k v : String) : String := k ++ "=" ++ v

/-- A form-encoded body: fields joined by ampersands. -/
def formBody (fields : List (String × String)) : String :=
  String.intercalate "&" (List.map (fun kv => formField kv.1 kv.2) fields)

/-- The one token-exchange request the authentication step issues
(cell 8d385481): requests.post(url=mso_url, data=mso_body). -/
def authRequest (tenant_id client_id client_secret : String) : HttpRequest :=
  { method := "POST", url := mso_url tenant_id,
    body := mso_body client_id client_secret }

/-- All HTTP requests the authentication step of the notebook issues: the
single POST of cell 8d385481. -/
def authRequests (tenant_id client_id client_secret : String) :
    List HttpRequest :=
  [authRequest tenant_id client_id client_secret]

/-- token_data = auth_response.json() (cell 998667d1): the parsed body; the
status code of the response is never consulted. -/
def token_data (auth_response : HttpResponse) : Json := auth_response.body

/-- The headers dict (cell 4ce9abfe).  The Authorization value is the
f-string joining token_data["token_type"] and token_data["access_token"]
with one space; CPython evaluates the two lookups left to right and raises
KeyError on the first absent key, with no fallback or default. -/
def buildHeaders (td : Json) : Except PyError (List (String × String)) := do
  let tokenType ← jsonGet td "token_type"
  let accessToken ← jsonGet td "access_token"
  Except.ok [("Content-Type", "application/json"),
             ("Authorization", pyStr tokenType ++ " " ++ pyStr accessToken)]

/-- The whole authentication pipeline from response to headers: read the
body, build the headers. -/
def headersOfResponse (auth_response : HttpResponse) :
    Except PyError (List (String × String)) :=
  buildHeaders (token_data auth_response)

/-- azure_ml_mlflow_base (cell 1c238b29): the f-string with the workspace
coordinates substituted. -/
def azure_ml_mlflow_base (location subscription_id resource_group
    workspace_name : String) : String :=
  "https://" ++ location ++ ".api.azureml.ms/mlflow/v1.0/subscriptions/" ++
    subscription_id ++ "/resourceGroups/" ++ resource_group ++
    "/providers/Microsoft.MachineLearningServices/workspaces/" ++
    workspace_name

/-- mlflow_api_path (cell 1c238b29). -/
def mlflow_api_path : String := "api/2.0/mlflow"

/-- The experiments query (cell 62197f71): the GET request against the
f-string joining the base URL, the fixed API path and /experiments/list. -/
def experimentsListRequest (location subscription_id resource_group
    workspace_name : String) : HttpRequest :=
  { method := "GET",
    url := azure_ml_mlflow_base location subscription_id resource_group
        workspace_name ++ "/" ++ mlflow_api_path ++ "/experiments/list",
    body := "" }

/-- The tabular structure pandas builds for display: its rows. -/
structure DataFrame where
  rows : List Json

/-- pd.DataFrame applied to a parsed JSON value: a JSON array becomes the
table whose rows are its elements (pandas is external; only the array case
is exercised by the notebook). -/
def pdDataFrame (j : Json) : DataFrame :=
  match j with
  | Json.arr elems => { rows := elems }
  | other => { rows := [other] }

/-- The display pipeline of cells 54623f31 and fdcdf0e8:
data = response.json(); pd.DataFrame(data["experiments"]).  The status code
of the response is never consulted, and the experiments key is looked up
unguarded: an absent key is a KeyError, not an empty table. -/
def displayExperiments (response : HttpResponse) :
    Except PyError DataFrame := do
  let data := response.body
  let experiments ← jsonGet data "experiments"
  Except.ok (pdDataFrame experiments)

/-! ## The Synapse Spark pool compute workflow

The attach/detach notebook builds SynapseSparkCompute descriptors and
submits them through ml_client.begin_create_or_update, and detaches with
ml_client.compute.begin_delete(name=..., action="Detach").  The SDK entity
classes are external; the descriptors below carry exactly the constructor
arguments the notebook passes. -/

structure UserAssignedIdentity where
  resource_id : String
  deriving DecidableEq, Repr

structure IdentityConfiguration where
  type : String
  user_assigned_identities : Option (List UserAssignedIdentity)
  deriving DecidableEq, Repr

structure SynapseSparkCompute where
  name : String
  resource_id : String
  identity : Option IdentityConfiguration
  deriving DecidableEq, Repr

/-- First attach cell: SynapseSparkCompute(name=synapse_name,
resource_id=synapse_resource), no identity argument. -/
def attachPlain (synapse_name synapse_resource : String) :
    SynapseSparkCompute :=
  { name := synapse_name, resource_id := synapse_resource, identity := none }

/-- Second attach cell: identity=IdentityConfiguration(type="SystemAssigned"),
no user_assigned_identities argument. -/
def attachSystemAssigned (synapse_name synapse_resource : String) :
    SynapseSparkCompute :=
  { name := synapse_name, resource_id := synapse_resource,
    identity := some { type := "SystemAssigned",
                       user_assigned_identities := none } }

/-- Third attach cell: identity=IdentityConfiguration(type="UserAssigned",
user_assigned_identities=[UserAssignedIdentity(resource_id=...)]). -/
def attachUserAssigned (synapse_name synapse_resource
    identity_resource_id : String) : SynapseSparkCompute :=
  { name := synapse_name, resource_id := synapse_resource,
    identity := some { type := "UserAssigned",
                       user_assigned_identities :=
                         some [{ resource_id := identity_resource_id }] } }

/-- The descriptor ml_client.begin_create_or_update submits is the entity
it is given. -/
def submittedDescriptor (c : SynapseSparkCompute) : SynapseSparkCompute := c

/-- The delete/detach call: ml_client.compute.begin_delete takes the pool
name and an action string. -/
structure ComputeDeleteRequest where
  name : String
  action : String
  deriving DecidableEq, Repr

/-- Detach cell: ml_client.compute.begin_delete(name=synapse_name,
action="Detach"). -/
def detachCall (synapse_name : String) : ComputeDeleteRequest :=
  { name := synapse_name, action := "Detach" }

/-! ## Helper lemmas -/

/-- Resolving an artifact dictionary with a referenced path absent from the
files fails with an UnresolvedArtifact error. -/
theorem resolveArtifacts_error_of_missing (arts : List (String × String))
    (files : Disk)
    (h : ∃ nm path, (nm, path) ∈ arts ∧ List.lookup path files = none) :
    ∃ nm, resolveArtifacts arts files
      = Except.error (LoadError.unresolvedArtifact nm) := by
  induction arts with
  | nil =>
    obtain ⟨nm, path, hmem, _⟩ := h
    simp at hmem
  | cons hd tl ih =>
    obtain ⟨nm, path, hmem, hnone⟩ := h
    obtain ⟨nm0, path0⟩ := hd
    by_cases h0 : List.lookup path0 files = none
    · exact ⟨nm0, by simp [resolveArtifacts, h0]⟩
    · obtain ⟨file0, hfile0⟩ := Option.ne_none_iff_exists'.mp h0
      have htl : (nm, path) ∈ tl := by
        rcases List.mem_cons.mp hmem with heq | htl
        · exfalso
          have hp : path0 = path := by
            have := congrArg Prod.snd heq
            simpa using this.symm
          rw [hp] at hfile0
          rw [hfile0] at hnone
          exact Option.noConfusion hnone
        · exact htl
      obtain ⟨nm1, h1⟩ := ih ⟨nm, path, htl, hnone⟩
      refine ⟨nm1, ?_⟩
      simp only [resolveArtifacts, hfile0]
      rw [h1]
      rfl

/-! ## The claims -/

/-- C1: round-trip independence fails on the code.  In a fresh process,
where the logging-process global name model is unbound, the artifacts-based
ModelWrapper.load_context raises NameError over the free name model instead
of reconstructing the wrapped model from the bundle's artifact files, and
the loader module's _load_pyfunc raises NameError over the never-imported
name XGBClassifier; neither reconstructs a working predictor from the
artifact files alone. -/
theorem spec_C1_fresh_process_round_trip :
    ModelWrapperArtifacts.load_context { _model := none } none
        { artifacts := [("model", "xgb.model")] } [("xgb.model", 7)]
      = Except.error (PyError.nameError "model")
  ∧ _load_pyfunc loaderModuleNamespace "xgb.model" [("xgb.model", 7)]
      = Except.error (PyError.nameError "XGBClassifier") :=
  ⟨rfl, rfl⟩

/-- C2: prediction reproducibility holds for the direct-reference wrapper
(the unpickled wrapper reproduces predict_proba of the wrapped model) but
fails on the code for the artifacts-based wrapper: even in the logging
process itself, where the global name model is still bound to the trained
classifier with state 7, load_context leaves self._model a fresh unfitted
classifier (the slip model.load_model instead of self._model.load_model),
so predict afterwards disagrees with the trained model's predict_proba; in
a fresh process load_context raises NameError outright. -/
theorem spec_C2_prediction_reproducibility :
    (∀ (m : XGBClassifier) (context : PythonModelContext) (x : Nat),
        (ModelWrapper.unpickle (ModelWrapper.pickle { _model := m })).predict
            context x
          = m.predict_proba x)
  ∧ (∃ w g,
      ModelWrapperArtifacts.load_context { _model := none }
          (some { weights := 7 }) { artifacts := [("model", "xgb.model")] }
          [("xgb.model", XGBClassifier.save_model { weights := 7 })]
        = Except.ok (w, g)
      ∧ w.predict { artifacts := [("model", "xgb.model")] } 3
          ≠ Except.ok (XGBClassifier.predict_proba { weights := 7 } 3))
  ∧ ModelWrapperArtifacts.load_context { _model := none } none
        { artifacts := [("model", "xgb.model")] }
        [("xgb.model", XGBClassifier.save_model { weights := 7 })]
      = Except.error (PyError.nameError "model") := by
  refine ⟨fun _ _ _ => rfl,
    ⟨{ _model := some XGBClassifier.new }, some { weights := 7 }, rfl, ?_⟩, rfl⟩
  simp [ModelWrapperArtifacts.predict, XGBClassifier.predict_proba,
    XGBClassifier.new]

/-- C3: the loader-module scenario fails on the code.  Loading a bundle
logged with loader_module="loader_module" does invoke exactly the function
_load_pyfunc of that module with the bundle's data path xgb.model, and the
class MyModel does expose predict; but _load_pyfunc as written raises
NameError over the never-imported name XGBClassifier instead of returning a
MyModel instance. -/
theorem spec_C3_loader_module_scenario :
    (∀ disk : Disk, loadViaLoaderModule "loader_module" "xgb.model" disk
        = _load_pyfunc loaderModuleNamespace "xgb.model" disk)
  ∧ _load_pyfunc loaderModuleNamespace "xgb.model" [("xgb.model", 7)]
      = Except.error (PyError.nameError "XGBClassifier")
  ∧ (∀ (m : MyModel) (x : Nat), m.predict x = m._model.predict_proba x) :=
  ⟨fun _ => rfl, rfl, fun _ _ => rfl⟩

/-- C4: the two construction strategies agree on the predictor contract at
the predict level — for every wrapped model and input, the adapter-object
wrapper and the deferred-loader adapter MyModel both return the wrapped
model's predict_proba — but the deferred-loader strategy as coded never
yields its predictor: _load_pyfunc raises NameError over the never-imported
name XGBClassifier for every data path and file system. -/
theorem spec_C4_construction_strategy_contract :
    (∀ (m : XGBClassifier) (context : PythonModelContext) (x : Nat),
        ModelWrapper.predict { _model := m } context x = m.predict_proba x
      ∧ MyModel.predict { _model := m } x = m.predict_proba x)
  ∧ (∀ (data_path : String) (disk : Disk),
      _load_pyfunc loaderModuleNamespace data_path disk
        = Except.error (PyError.nameError "XGBClassifier")) :=
  ⟨fun _ _ _ => ⟨rfl, rfl⟩, fun _ _ => rfl⟩

/-- C5: the Model Bundle Loader (modelled from the spec; the loader is
mlflow-library code, not repository source) fails with ManifestMissing on a
bundle lacking its manifest, yielding no predictor handle at all, and fails
with UnresolvedArtifact on a bundle whose artifact dictionary references a
path absent from disk; in both cases the load-then-predict composition
surfaces the very same error, so predict is never reached. -/
theorem spec_C5_loader_error_taxonomy :
    (∀ b : Bundle, b.manifest = none →
        load b = Except.error LoadError.manifestMissing
      ∧ (∀ h : PredictorHandle, load b ≠ Except.ok h)
      ∧ (∀ x : Nat, loadThenPredict b x
          = Except.error LoadError.manifestMissing))
  ∧ (∀ (b : Bundle) (mf : Manifest), b.manifest = some mf →
      (∃ nm path, (nm, path) ∈ mf.artifacts
        ∧ List.lookup path b.files = none) →
      ∃ nm, load b = Except.error (LoadError.unresolvedArtifact nm)
        ∧ ∀ x : Nat, loadThenPredict b x
            = Except.error (LoadError.unresolvedArtifact nm)) := by
  constructor
  · intro b hb
    have hload : load b = Except.error LoadError.manifestMissing := by
      simp [load, hb]
    refine ⟨hload, ?_, ?_⟩
    · intro h hcontra
      rw [hload] at hcontra
      exact Except.noConfusion hcontra
    · intro x
      simp [loadThenPredict, hload]
  · intro b mf hb hmiss
    obtain ⟨nm, hres⟩ := resolveArtifacts_error_of_missing mf.artifacts b.files hmiss
    have hload : load b = Except.error (LoadError.unresolvedArtifact nm) := by
      simp only [load, hb]
      rw [hres]
      rfl
    exact ⟨nm, hload, fun x => by simp [loadThenPredict, hload]⟩

/-- Witness for C5: a concrete manifest-less bundle fails with
ManifestMissing, and a concrete bundle whose manifest references the
artifact path xgb.model over an empty file system fails with
UnresolvedArtifact. -/
theorem spec_C5_witness :
    load { manifest := none, files := [] }
      = Except.error LoadError.manifestMissing
  ∧ ∃ nm, load (Bundle.mk (some (Manifest.mk "python_function"
        (EntryPoint.adapterObject 0) [("model", "xgb.model")] none)) [])
      = Except.error (LoadError.unresolvedArtifact nm) := by
  constructor
  · exact (spec_C5_loader_error_taxonomy.1 _ rfl).1
  · obtain ⟨nm, h1, _⟩ := spec_C5_loader_error_taxonomy.2
      (Bundle.mk (some (Manifest.mk "python_function"
        (EntryPoint.adapterObject 0) [("model", "xgb.model")] none)) [])
      (Manifest.mk "python_function" (EntryPoint.adapterObject 0)
        [("model", "xgb.model")] none)
      rfl ⟨"model", "xgb.model", by simp, rfl⟩
    exact ⟨nm, h1⟩

/-- C6: the authentication step issues exactly one HTTP POST, its body is
exactly the four form fields grant_type, client_id, client_secret and
resource joined by ampersands, grant_type is client_credentials, and the
Authorization header built afterwards is the token_type and access_token
fields of the response JSON joined by one space. -/
theorem spec_C6_token_exchange_shape :
    ∀ tenant_id client_id client_secret : String,
      authRequests tenant_id client_id client_secret
        = [authRequest tenant_id client_id client_secret]
    ∧ (authRequest tenant_id client_id client_secret).method = "POST"
    ∧ (authRequest tenant_id client_id client_secret).body
        = formBody [("grant_type", grant_type), ("client_id", client_id),
                    ("client_secret", client_secret),
                    ("resource", resource_scope)]
    ∧ grant_type = "client_credentials"
    ∧ (∀ token_type access_token : String,
        buildHeaders (Json.obj [("token_type", Json.str token_type),
                                ("access_token", Json.str access_token)])
          = Except.ok [("Content-Type", "application/json"),
                       ("Authorization",
                         token_type ++ " " ++ access_token)]) := by
  intro tenant_id client_id client_secret
  refine ⟨rfl, rfl, ?_, rfl, ?_⟩
  · apply String.ext
    simp [authRequest, mso_body, formBody, formField, grant_type,
      resource_scope, String.intercalate, String.intercalate.go,
      String.data_append]
  · intro token_type access_token
    rfl

/-- C7: the experiments query is an HTTP GET whose URL is the workspace
tracking base URL followed by /api/2.0/mlflow followed by
/experiments/list, and a response whose JSON object carries the list field
experiments is converted to the tabular structure whose rows are exactly
that list. -/
theorem spec_C7_tracking_request_shape :
    (∀ location subscription_id resource_group workspace_name : String,
      experimentsListRequest location subscription_id resource_group
          workspace_name
        = { method := "GET",
            url := azure_ml_mlflow_base location subscription_id
                resource_group workspace_name
              ++ "/api/2.0/mlflow" ++ "/experiments/list",
            body := "" })
  ∧ (∀ (s : Nat) (fields : List (String × Json)) (rows : List Json),
      List.lookup "experiments" fields = some (Json.arr rows) →
      displayExperiments { statusCode := s, body := Json.obj fields }
        = Except.ok { rows := rows }) := by
  constructor
  · intro location subscription_id resource_group workspace_name
    have hurl : azure_ml_mlflow_base location subscription_id resource_group
          workspace_name ++ "/" ++ mlflow_api_path ++ "/experiments/list"
        = azure_ml_mlflow_base location subscription_id resource_group
          workspace_name ++ "/api/2.0/mlflow" ++ "/experiments/list" := by
      apply String.ext
      simp [mlflow_api_path, String.data_append]
    simp [experimentsListRequest, hurl]
  · intro s fields rows hlk
    simp [displayExperiments, jsonGet, hlk, pdDataFrame]
    rfl

/-- Witness for C7: a concrete response carrying one experiment record in
its experiments field is tabulated into the one-row table. -/
theorem spec_C7_witness :
    displayExperiments
        { statusCode := 200,
          body := Json.obj
            [("experiments", Json.arr [Json.str "heart-disease-classifier"])] }
      = Except.ok { rows := [Json.str "heart-disease-classifier"] } :=
  spec_C7_tracking_request_shape.2 200
    [("experiments", Json.arr [Json.str "heart-disease-classifier"])]
    [Json.str "heart-disease-classifier"] rfl

/-- C8: each attach variant submits through create-or-update a descriptor
carrying exactly the pool name, the external resource ID, and an identity
descriptor only in the identity variants (none in the plain variant); the
detach operation calls the delete endpoint with exactly the pool name and
the action string Detach. -/
theorem spec_C8_compute_request_shape :
    ∀ synapse_name synapse_resource identity_resource_id : String,
      submittedDescriptor (attachPlain synapse_name synapse_resource)
        = { name := synapse_name, resource_id := synapse_resource,
            identity := none }
    ∧ submittedDescriptor (attachSystemAssigned synapse_name synapse_resource)
        = { name := synapse_name, resource_id := synapse_resource,
            identity := some { type := "SystemAssigned", user_assigned_identities := none } }
    ∧ submittedDescriptor
          (attachUserAssigned synapse_name synapse_resource
            identity_resource_id)
        = { name := synapse_name, resource_id := synapse_resource,
            identity := some { type := "UserAssigned", user_assigned_identities := some [{ resource_id := identity_resource_id }] } }
    ∧ detachCall synapse_name
        = { name := synapse_name, action := "Detach" } :=
  fun _ _ _ => ⟨rfl, rfl, rfl, rfl⟩

/-- C9: the token-exchange workflow reads the OAuth response body without
ever consulting the HTTP status (two responses with equal bodies yield
equal outcomes whatever their status codes), and a response JSON lacking
token_type, or carrying token_type but lacking access_token, makes the
Authorization-header construction fail with exactly that KeyError, with no
fallback or default. -/
theorem spec_C9_unchecked_token_response :
    (∀ r1 r2 : HttpResponse, r1.body = r2.body →
      headersOfResponse r1 = headersOfResponse r2)
  ∧ (∀ fields : List (String × Json),
      List.lookup "token_type" fields = none →
      buildHeaders (Json.obj fields)
        = Except.error (PyError.keyError "token_type"))
  ∧ (∀ (fields : List (String × Json)) (v : Json),
      List.lookup "token_type" fields = some v →
      List.lookup "access_token" fields = none →
      buildHeaders (Json.obj fields)
        = Except.error (PyError.keyError "access_token")) := by
  refine ⟨?_, ?_, ?_⟩
  · intro r1 r2 h
    simp [headersOfResponse, token_data, h]
  · intro fields hlk
    simp [buildHeaders, jsonGet, hlk]
    rfl
  · intro fields v h1 h2
    simp [buildHeaders, jsonGet, h1, h2]
    rfl

/-- Witness for C9: a concrete OAuth error body lacking both token fields
fails with KeyError token_type, a body carrying only token_type fails with
KeyError access_token, and two concrete responses with the same body but
different status codes (200 and 500) produce the same outcome. -/
theorem spec_C9_witness :
    headersOfResponse
        { statusCode := 401,
          body := Json.obj [("error", Json.str "invalid_client")] }
      = Except.error (PyError.keyError "token_type")
  ∧ buildHeaders (Json.obj [("token_type", Json.str "Bearer")])
      = Except.error (PyError.keyError "access_token")
  ∧ headersOfResponse
        { statusCode := 200,
          body := Json.obj [("error", Json.str "invalid_client")] }
      = headersOfResponse
        { statusCode := 500,
          body := Json.obj [("error", Json.str "invalid_client")] } := by
  refine ⟨?_, ?_, ?_⟩
  · exact spec_C9_unchecked_token_response.2.1
      [("error", Json.str "invalid_client")] rfl
  · exact spec_C9_unchecked_token_response.2.2
      [("token_type", Json.str "Bearer")] (Json.str "Bearer") rfl rfl
  · exact spec_C9_unchecked_token_response.1
      { statusCode := 200, body := Json.obj [("error", Json.str "invalid_client")] }
      { statusCode := 500, body := Json.obj [("error", Json.str "invalid_client")] }
      rfl

/-- C10: the experiments-listing display reads the GET response body
without consulting the HTTP status, and a body whose JSON object lacks the
key experiments makes the tabulation fail with KeyError experiments — it
never produces any table, in particular not an empty one. -/
theorem spec_C10_experiments_lookup_unguarded :
    (∀ r1 r2 : HttpResponse, r1.body = r2.body →
      displayExperiments r1 = displayExperiments r2)
  ∧ (∀ (s : Nat) (fields : List (String × Json)),
      List.lookup "experiments" fields = none →
        displayExperiments { statusCode := s, body := Json.obj fields }
          = Except.error (PyError.keyError "experiments")
      ∧ ∀ t : DataFrame,
          displayExperiments { statusCode := s, body := Json.obj fields }
            ≠ Except.ok t) := by
  constructor
  · intro r1 r2 h
    simp [displayExperiments, h]
  · intro s fields hlk
    have herr : displayExperiments { statusCode := s, body := Json.obj fields }
        = Except.error (PyError.keyError "experiments") := by
      simp [displayExperiments, jsonGet, hlk]
      rfl
    refine ⟨herr, ?_⟩
    intro t hcontra
    rw [herr] at hcontra
    exact Except.noConfusion hcontra

/-- Witness for C10: a concrete 404 error payload without an experiments
key fails with KeyError experiments and yields no table, not even the
empty one. -/
theorem spec_C10_witness :
    displayExperiments
        { statusCode := 404,
          body := Json.obj [("error_code", Json.str "RESOURCE_DOES_NOT_EXIST")] }
      = Except.error (PyError.keyError "experiments")
  ∧ displayExperiments
        { statusCode := 404,
          body := Json.obj [("error_code", Json.str "RESOURCE_DOES_NOT_EXIST")] }
      ≠ Except.ok { rows := [] } := by
  refine ⟨?_, ?_⟩
  · exact (spec_C10_experiments_lookup_unguarded.2 404
      [("error_code", Json.str "RESOURCE_DOES_NOT_EXIST")] rfl).1
  · exact (spec_C10_experiments_lookup_unguarded.2 404
      [("error_code", Json.str "RESOURCE_DOES_NOT_EXIST")] rfl).2
      { rows := [] }
